import Mathlib

/-!
Verification of the nrv64emu RISC-V instruction-set simulator.

Shallow embedding of `src/mem.rs`, `src/decoder.rs` and `src/cpu.rs`.
Machine integers are modelled as `Nat` bit patterns (`% 2^w` at wrapping
operations); signed 32-bit immediates are kept as their 32-bit patterns,
with explicit sign-extension helpers at the use sites, mirroring the
Rust casts.  Fallible or panicking code returns `Option`: a result of
`none` models a Rust panic (`unimplemented!`, slice-index out of bounds,
integer division by zero), while `some none` models a graceful `None` /
`false` return where the Rust type is `Option` / `bool`.
-/

namespace Nrv64

/-- Wrap to 64 bits, modelling `u64` wrapping arithmetic. -/
def wrap64 (x : Nat) : Nat := x % 2^64

/-- Wrap to 32 bits, modelling `u32` wrapping arithmetic. -/
def wrap32 (x : Nat) : Nat := x % 2^32

/-- Two's-complement complement of a 64-bit pattern (`!x` on `u64`). -/
def comp64 (x : Nat) : Nat := (2^64 - 1) ^^^ (x % 2^64)

/-- Sign-extend an 8-bit pattern to a 64-bit pattern (`x as i8 as i64 as u64`). -/
def sext8_64 (x : Nat) : Nat :=
  if x % 2^8 < 2^7 then x % 2^8 else x % 2^8 + (2^64 - 2^8)

/-- Sign-extend a 16-bit pattern to a 64-bit pattern (`x as i16 as i64 as u64`). -/
def sext16_64 (x : Nat) : Nat :=
  if x % 2^16 < 2^15 then x % 2^16 else x % 2^16 + (2^64 - 2^16)

/-- Sign-extend a 32-bit pattern to a 64-bit pattern (`x as i32 as i64 as u64`,
also `(res << 32) >> 32` on an `i64` holding a 32-bit value). -/
def sext32_64 (x : Nat) : Nat :=
  if x % 2^32 < 2^31 then x % 2^32 else x % 2^32 + (2^64 - 2^32)

/-- Arithmetic right shift of a 32-bit pattern (`>>` on `i32`).
The argument is assumed to be a 32-bit pattern and `n ≤ 32`. -/
def sar32 (x n : Nat) : Nat :=
  if x < 2^31 then x >>> n else (x >>> n) + (2^32 - 2^(32 - n))

/-- Arithmetic right shift of a 64-bit pattern (`>>` on `i64`). -/
def sar64 (x n : Nat) : Nat :=
  if x < 2^63 then x >>> n else (x >>> n) + (2^64 - 2^(64 - n))

/-- Signed value of a 64-bit pattern (`x as i64`). -/
def toI64 (x : Nat) : Int :=
  if x < 2^63 then (x : Int) else (x : Int) - 2^64

/-- Signed value of a 32-bit pattern (`x as i32`, read as a number). -/
def toI32 (x : Nat) : Int :=
  if x < 2^31 then (x : Int) else (x : Int) - 2^32

/-- 64-bit wrapping subtraction (`u64::wrapping_sub`). -/
def wsub64 (a b : Nat) : Nat := (a + 2^64 - b % 2^64) % 2^64

/-- 32-bit wrapping subtraction (`i32::wrapping_sub` on patterns). -/
def wsub32 (a b : Nat) : Nat := (a + 2^32 - b % 2^32) % 2^32

/-- `value.to_le_bytes()` for a `width`-byte integer. -/
def toLeBytes (v width : Nat) : List Nat :=
  (List.range width).map (fun i => v / 256^i % 256)

/-- `uN::from_le_bytes(slice)`. -/
def fromLeBytes (l : List Nat) : Nat :=
  l.foldr (fun b acc => b + 256 * acc) 0

/-! ## Memory (`src/mem.rs`)

A sparse map of byte regions.  The `BTreeMap<u64, Box<[u8]>>` is modelled
as a list of `(base, data)` pairs with distinct bases; `find_region`
selects the entry with the greatest base `≤ addr`, exactly like
`regions.range(..=addr).next_back()`. -/

structure Memory where
  regions : List (Nat × List Nat)
deriving DecidableEq

namespace Memory

/-- `regions.get(&base)`. -/
def getRegion (m : Memory) (base : Nat) : Option (List Nat) :=
  (m.regions.find? (fun br => br.1 == base)).map (fun br => br.2)

/-- `Memory::find_region`: greatest base `≤ addr`, then the containment
check `addr < base + data.len()`; returns `(base, offset)`. -/
def find_region (m : Memory) (addr : Nat) : Option (Nat × Nat) :=
  let best := m.regions.foldl (fun acc br =>
    match acc with
    | none => if br.1 ≤ addr then some br else none
    | some b0 => if br.1 ≤ addr ∧ b0.1 < br.1 then some br else acc) none
  match best with
  | none => none
  | some (base, data) =>
    if addr < base + data.length then some (base, addr - base) else none

/-- `Memory::get_slice(addr, len)`.  The outer `Option` layer models a
panic: the Rust body indexes `&mem[off..][..len]`, which panics when the
request overruns the region instead of returning `None`. -/
def get_slice (m : Memory) (addr len : Nat) : Option (Option (List Nat)) :=
  match m.find_region addr with
  | none => some none
  | some (base, off) =>
    match m.getRegion base with
    | none => some none
    | some data =>
      if off + len ≤ data.length then some (some ((data.drop off).take len))
      else none

/-- `Memory::get_slice_mut(addr, len)`: same lookup and the same
panicking slice indexing as `get_slice`, returning the borrowed bytes. -/
def get_slice_mut (m : Memory) (addr len : Nat) : Option (Option (List Nat)) :=
  match m.find_region addr with
  | none => some none
  | some (base, off) =>
    match m.getRegion base with
    | none => some none
    | some data =>
      if off + len ≤ data.length then some (some ((data.drop off).take len))
      else none

/-- Replace the buffer of the region keyed by `base`. -/
def setRegion (m : Memory) (base : Nat) (data : List Nat) : Memory :=
  ⟨m.regions.map (fun br => if br.1 = base then (base, data) else br)⟩

/-- Effect of `slice.copy_from_slice(bytes)` through a mutable slice at
`addr`: splice `bytes` into the containing region. -/
def writeAt (m : Memory) (addr : Nat) (bytes : List Nat) : Memory :=
  match m.find_region addr with
  | none => m
  | some (base, off) =>
    match m.getRegion base with
    | none => m
    | some data =>
      m.setRegion base (data.take off ++ bytes ++ data.drop (off + bytes.length))

end Memory

/-! ## Decoder (`src/decoder.rs`) -/

structure RType where
  opcode : Nat
  rd : Nat
  funct3 : Nat
  rs1 : Nat
  rs2 : Nat
  funct7 : Nat
deriving DecidableEq

/-- `impl From<u32> for RType`. -/
def RType.ofRaw (w : Nat) : RType :=
  ⟨w % 128, (w >>> 7) % 32, (w >>> 12) % 8, (w >>> 15) % 32,
   (w >>> 20) % 32, (w >>> 25) % 256⟩

structure IType where
  opcode : Nat
  rd : Nat
  funct3 : Nat
  rs1 : Nat
  /-- 32-bit pattern of the `i32` immediate. -/
  imm : Nat
deriving DecidableEq

/-- `impl From<u32> for IType`: `imm = (instruction as i32) >> 20`. -/
def IType.ofRaw (w : Nat) : IType :=
  ⟨w % 128, (w >>> 7) % 32, (w >>> 12) % 8, (w >>> 15) % 32, sar32 w 20⟩

structure SType where
  opcode : Nat
  funct3 : Nat
  rs1 : Nat
  rs2 : Nat
  /-- 32-bit pattern of the `i32` immediate. -/
  imm : Nat
deriving DecidableEq

/-- `impl From<u32> for SType`:
`imm = ((insn as i32 >> 7) & 0x1F) | (insn as i32 >> 20) & !0x1F`. -/
def SType.ofRaw (w : Nat) : SType :=
  ⟨w % 128, (w >>> 12) % 8, (w >>> 15) % 32, (w >>> 20) % 32,
   (sar32 w 7 &&& 0x1F) ||| (sar32 w 20 &&& 0xFFFFFFE0)⟩

/-- `decode_b_imm`. -/
def decode_b_imm (w : Nat) : Nat :=
  let imm_12 := (w >>> 31) &&& 1
  let imm_11 := (w >>> 7) &&& 1
  let imm_10_5 := (w >>> 25) &&& 0x3F
  let imm_4_1 := (w >>> 8) &&& 0xF
  let immediate := (imm_12 <<< 12) ||| (imm_11 <<< 11) ||| (imm_10_5 <<< 5) |||
    (imm_4_1 <<< 1)
  sar32 ((immediate <<< 19) % 2^32) 19

structure BType where
  opcode : Nat
  funct3 : Nat
  rs1 : Nat
  rs2 : Nat
  /-- 32-bit pattern of the `i32` immediate. -/
  imm : Nat
deriving DecidableEq

/-- `impl From<u32> for BType`. -/
def BType.ofRaw (w : Nat) : BType :=
  ⟨w % 128, (w >>> 12) % 8, (w >>> 15) % 32, (w >>> 20) % 32, decode_b_imm w⟩

/-- `decode_u_imm`: the source masks with `0xfffff800` (note bit 11). -/
def decode_u_imm (w : Nat) : Nat :=
  w &&& 0xfffff800

/-- `decode_i_imm` (used for the J-type immediate). -/
def decode_i_imm (w : Nat) : Nat :=
  (sar32 (w &&& 0x80000000) 11) ||| (sar32 w 20 &&& 0x7FE) |||
    (sar32 w 9 &&& 0x800) ||| (w &&& 0xff000)

structure UType where
  opcode : Nat
  rd : Nat
  /-- 32-bit pattern of the `i32` immediate. -/
  imm : Nat
deriving DecidableEq

/-- `impl From<u32> for UType`. -/
def UType.ofRaw (w : Nat) : UType :=
  ⟨w % 128, (w >>> 7) % 32, decode_u_imm w⟩

structure JType where
  opcode : Nat
  rd : Nat
  /-- 32-bit pattern of the `i32` immediate. -/
  imm : Nat
deriving DecidableEq

/-- `impl From<u32> for JType`. -/
def JType.ofRaw (w : Nat) : JType :=
  ⟨w % 128, (w >>> 7) % 32, decode_i_imm w⟩

/-- `enum Instruction` from `src/decoder.rs`.  The constructors `Mulw`,
`Subw`, `Sllw`, `Amoaddw` and `Amoswapd` are referenced by the dispatch
match in `src/cpu.rs`; `decode` never produces them. -/
inductive Instruction where
  | Auipc (u : UType)
  | Lui (u : UType)
  | Addi (i : IType)
  | Slli (i : IType)
  | Slti (i : IType)
  | Sltiu (i : IType)
  | Srai (i : IType)
  | Srli (i : IType)
  | Xori (i : IType)
  | Ori (i : IType)
  | Andi (i : IType)
  | Addiw (i : IType)
  | Slliw (i : IType)
  | Srliw (i : IType)
  | Addw (r : RType)
  | Mulw (r : RType)
  | Subw (r : RType)
  | Sllw (r : RType)
  | Csrrw (i : IType)
  | Csrrs (i : IType)
  | Csrrc (i : IType)
  | Csrrwi (i : IType)
  | Mret (i : IType)
  | Sret (i : IType)
  | Wfi (i : IType)
  | Add (r : RType)
  | Sub (r : RType)
  | Sll (r : RType)
  | Slt (r : RType)
  | Sltu (r : RType)
  | Xor (r : RType)
  | Srl (r : RType)
  | Sra (r : RType)
  | Or (r : RType)
  | And (r : RType)
  | Load (i : IType)
  | Store (s : SType)
  | Ebreak
  | Ecall
  | Mul (r : RType)
  | Mulh (r : RType)
  | Div (r : RType)
  | Divu (r : RType)
  | Rem (r : RType)
  | Remu (r : RType)
  | Jal (j : JType)
  | Jalr (i : IType)
  | Beq (b : BType)
  | Bne (b : BType)
  | Blt (b : BType)
  | Bge (b : BType)
  | Bltu (b : BType)
  | Bgeu (b : BType)
  | Amoswapw (r : RType)
  | Amoaddw (r : RType)
  | Amoswapd (r : RType)
  | Fence
  | Invalid (raw : Nat)

/-- `Instruction::decode`.  `none` models the `unimplemented!` panics of
the source (fatal decode); every handled arm returns `some`. -/
def decode (w : Nat) : Option Instruction :=
  let opcode := w % 128
  if opcode = 0x03 then some (.Load (IType.ofRaw w))
  else if opcode = 0x0F then some .Fence
  else if opcode = 0x13 then
    let it := IType.ofRaw w
    if it.funct3 = 0 then some (.Addi it)
    else if it.funct3 = 1 then some (.Slli it)
    else if it.funct3 = 2 then some (.Slti it)
    else if it.funct3 = 3 then some (.Sltiu it)
    else if it.funct3 = 4 then some (.Xori it)
    else if it.funct3 = 5 then
      if sar32 it.imm 5 = 0x20 then some (.Srai it) else some (.Srli it)
    else if it.funct3 = 6 then some (.Ori it)
    else if it.funct3 = 7 then some (.Andi it)
    else none
  else if opcode = 0x1b then
    let it := IType.ofRaw w
    if it.funct3 = 0 then some (.Addiw it)
    else if it.funct3 = 1 then some (.Slliw it)
    else if it.funct3 = 5 then some (.Srliw it)
    else none
  else if opcode = 0x17 then some (.Auipc (UType.ofRaw w))
  else if opcode = 0x23 then some (.Store (SType.ofRaw w))
  else if opcode = 0x2F then
    let rt := RType.ofRaw w
    if rt.funct3 = 2 ∧ rt.funct7 >>> 2 = 1 then some (.Amoswapw rt) else none
  else if opcode = 0x33 then
    let rt := RType.ofRaw w
    if rt.funct7 = 0x00 ∧ rt.funct3 = 0x0 then some (.Add rt)
    else if rt.funct7 = 0x00 ∧ rt.funct3 = 0x1 then some (.Sll rt)
    else if rt.funct7 = 0x00 ∧ rt.funct3 = 0x2 then some (.Slt rt)
    else if rt.funct7 = 0x00 ∧ rt.funct3 = 0x3 then some (.Sltu rt)
    else if rt.funct7 = 0x00 ∧ rt.funct3 = 0x4 then some (.Xor rt)
    else if rt.funct7 = 0x00 ∧ rt.funct3 = 0x5 then some (.Srl rt)
    else if rt.funct7 = 0x00 ∧ rt.funct3 = 0x6 then some (.Or rt)
    else if rt.funct7 = 0x00 ∧ rt.funct3 = 0x7 then some (.And rt)
    else if rt.funct7 = 0x20 ∧ rt.funct3 = 0x0 then some (.Sub rt)
    else if rt.funct7 = 0x20 ∧ rt.funct3 = 0x5 then some (.Sra rt)
    else if rt.funct7 = 0x01 ∧ rt.funct3 = 0x0 then some (.Mul rt)
    else if rt.funct7 = 0x01 ∧ rt.funct3 = 0x1 then some (.Mulh rt)
    else if rt.funct7 = 0x01 ∧ rt.funct3 = 0x4 then some (.Div rt)
    else if rt.funct7 = 0x01 ∧ rt.funct3 = 0x5 then some (.Divu rt)
    else if rt.funct7 = 0x01 ∧ rt.funct3 = 0x6 then some (.Rem rt)
    else if rt.funct7 = 0x01 ∧ rt.funct3 = 0x7 then some (.Remu rt)
    else some (.Invalid w)
  else if opcode = 0x37 then some (.Lui (UType.ofRaw w))
  else if opcode = 0x3B then
    let rt := RType.ofRaw w
    if rt.funct3 = 0x0 ∧ rt.funct7 = 0x00 then some (.Addw rt) else none
  else if opcode = 0x63 then
    let bt := BType.ofRaw w
    if bt.funct3 = 0 then some (.Beq bt)
    else if bt.funct3 = 1 then some (.Bne bt)
    else if bt.funct3 = 4 then some (.Blt bt)
    else if bt.funct3 = 5 then some (.Bge bt)
    else if bt.funct3 = 6 then some (.Bltu bt)
    else if bt.funct3 = 7 then some (.Bgeu bt)
    else none
  else if opcode = 0x67 then some (.Jalr (IType.ofRaw w))
  else if opcode = 0x6F then some (.Jal (JType.ofRaw w))
  else if opcode = 0x73 then
    let it := IType.ofRaw w
    if it.funct3 = 0 ∧ it.imm = 0x000 then some .Ecall
    else if it.funct3 = 0 ∧ it.imm = 0x001 then some .Ebreak
    else if it.funct3 = 0 ∧ it.imm = 0x102 then some (.Sret it)
    else if it.funct3 = 0 ∧ it.imm = 0x105 then some (.Wfi it)
    else if it.funct3 = 0 ∧ it.imm = 0x302 then some (.Mret it)
    else if it.funct3 = 1 then some (.Csrrw it)
    else if it.funct3 = 2 then some (.Csrrs it)
    else if it.funct3 = 3 then some (.Csrrc it)
    else if it.funct3 = 5 then some (.Csrrwi it)
    else none
  else none

/-- The domain of `decode`: the encodings on which the source does not
panic.  Written as a flat predicate over the raw fields, independent of
the dispatch tree. -/
def decodeSupported (w : Nat) : Prop :=
  w % 128 = 0x03 ∨ w % 128 = 0x0F ∨ w % 128 = 0x13 ∨ w % 128 = 0x17 ∨
  w % 128 = 0x23 ∨ w % 128 = 0x33 ∨ w % 128 = 0x37 ∨ w % 128 = 0x67 ∨
  w % 128 = 0x6F ∨
  (w % 128 = 0x1b ∧ ((w >>> 12) % 8 = 0 ∨ (w >>> 12) % 8 = 1 ∨
    (w >>> 12) % 8 = 5)) ∨
  (w % 128 = 0x2F ∧ (w >>> 12) % 8 = 2 ∧ ((w >>> 25) % 256) >>> 2 = 1) ∨
  (w % 128 = 0x3B ∧ (w >>> 12) % 8 = 0 ∧ (w >>> 25) % 256 = 0) ∨
  (w % 128 = 0x63 ∧ ((w >>> 12) % 8 = 0 ∨ (w >>> 12) % 8 = 1 ∨
    (w >>> 12) % 8 = 4 ∨ (w >>> 12) % 8 = 5 ∨ (w >>> 12) % 8 = 6 ∨
    (w >>> 12) % 8 = 7)) ∨
  (w % 128 = 0x73 ∧
    (((w >>> 12) % 8 = 0 ∧ (sar32 w 20 = 0x000 ∨ sar32 w 20 = 0x001 ∨
        sar32 w 20 = 0x102 ∨ sar32 w 20 = 0x105 ∨ sar32 w 20 = 0x302)) ∨
      (w >>> 12) % 8 = 1 ∨ (w >>> 12) % 8 = 2 ∨ (w >>> 12) % 8 = 3 ∨
      (w >>> 12) % 8 = 5))

instance (w : Nat) : Decidable (decodeSupported w) := by
  unfold decodeSupported; infer_instance

end Nrv64

namespace Nrv64

/-! ## CPU (`src/cpu.rs`) -/

def UART_BASE : Nat := 0x10000000
def UART_SIZE : Nat := 0x100

/-- `SSTATUS_MASK` from `src/cpu.rs`. -/
def SSTATUS_MASK : Nat := 0x30000de122

inductive HaltReason where
  | Halt
  | Steps
  | Breakpoint (pc : Nat)
deriving DecidableEq

/-- Architectural state of `struct Cpu`.  All words are 64-bit patterns.
`clock` models the host monotonic clock read by `rtc_time()` (the only
ambient input, spec section 5); it is a frozen field of the state. -/
structure Cpu where
  ram : Memory
  pc : Nat
  regs : List Nat
  privl : Nat
  pmpcfg : List Nat
  pmpaddr : List Nat
  mstatus : Nat
  misa : Nat
  medeleg : Nat
  mideleg : Nat
  mie : Nat
  mip : Nat
  mtvec : Nat
  mcounteren : Nat
  menvcfg : Nat
  mscratch : Nat
  mepc : Nat
  satp : Nat
  stimecmp : Nat
  clock : Nat
deriving DecidableEq

namespace Cpu

/-- `Cpu::read_csr`.  `none` models the `unimplemented!` panic on an
unmapped identifier. -/
def read_csr (c : Cpu) (csr : Nat) : Option Nat :=
  if csr = 0x100 then some (c.mstatus &&& SSTATUS_MASK)
  else if csr = 0x104 then some (c.mie &&& c.mideleg)
  else if csr = 0x14D then some c.stimecmp
  else if csr = 0x180 then some c.satp
  else if csr = 0x300 then some c.mstatus
  else if csr = 0x301 then some c.misa
  else if csr = 0x302 then some c.medeleg
  else if csr = 0x303 then some c.mideleg
  else if csr = 0x304 then some c.mie
  else if csr = 0x305 then some c.mtvec
  else if csr = 0x306 then some c.mcounteren
  else if csr = 0x30a then some c.menvcfg
  else if csr = 0x320 then some 0
  else if 0x3a0 ≤ csr ∧ csr ≤ 0x3a3 then some (c.pmpcfg.getD (csr &&& 0x0f) 0)
  else if 0x3b0 ≤ csr ∧ csr ≤ 0x3ff then some (c.pmpaddr.getD (csr &&& 0x3f) 0)
  else if csr = 0x340 then some c.mscratch
  else if csr = 0x341 then some c.mepc
  else if csr = 0x344 then some c.mip
  else if 0xB00 ≤ csr ∧ csr ≤ 0xB9F then some 0
  else if csr = 0xC01 then some c.clock
  else if csr = 0xF14 then some 0
  else none

/-- `Cpu::write_csr`.  `none` models the `unimplemented!` panic on an
unmapped identifier; the Rust function otherwise returns `true`. -/
def write_csr (c : Cpu) (csr val : Nat) : Option Cpu :=
  if csr = 0x100 then
    some { c with mstatus := (c.mstatus &&& comp64 SSTATUS_MASK) |||
      (val &&& SSTATUS_MASK) }
  else if csr = 0x104 then
    some { c with mie := (val &&& c.mideleg) ||| (c.mie &&& comp64 c.mideleg) }
  else if csr = 0x14D then some { c with stimecmp := val }
  else if csr = 0x180 then some { c with satp := val }
  else if csr = 0x300 then some { c with mstatus := val }
  else if csr = 0x302 then some { c with medeleg := val }
  else if csr = 0x303 then some { c with mideleg := val }
  else if csr = 0x304 then some { c with mie := val }
  else if csr = 0x305 then some { c with mtvec := val }
  else if csr = 0x306 then some { c with mcounteren := val }
  else if csr = 0x30a then some { c with menvcfg := val }
  else if csr = 0x340 then some { c with mscratch := val }
  else if csr = 0x341 then some { c with mepc := val }
  else if csr = 0x344 then some { c with mip := val }
  else if 0x3a0 ≤ csr ∧ csr ≤ 0x3a3 then
    some { c with pmpcfg := c.pmpcfg.set (csr &&& 0x0f) val }
  else if 0x3b0 ≤ csr ∧ csr ≤ 0x3ff then
    some { c with pmpaddr := c.pmpaddr.set (csr &&& 0x3f) val }
  else if 0xB00 ≤ csr ∧ csr ≤ 0xB9F then some c
  else none

end Cpu

/-- `Cpu::uart_store_u8`: offset 0 prints the byte on the host stdout
(an effect outside the modelled state); every offset returns `true`. -/
def uart_store_u8 (address value : Nat) : Bool :=
  match address, value with
  | _, _ => true

/-- `Cpu::uart_load_u8`. -/
def uart_load_u8 (address : Nat) : Option Nat :=
  if address = 0x05 then some 0x60 else none

namespace Cpu

/-- `Cpu::store_bytes`: checked through `get_slice_mut`, then the copy.
Result `none` models a panic, `some (false, _)` the `false` return. -/
def store_bytes (c : Cpu) (offset : Nat) (bytes : List Nat) :
    Option (Bool × Memory) :=
  match c.ram.get_slice_mut offset bytes.length with
  | none => none
  | some none => some (false, c.ram)
  | some (some _) => some (true, c.ram.writeAt offset bytes)

/-- `Cpu::store_u8`: UART window check, then byte store. -/
def store_u8 (c : Cpu) (address value : Nat) : Option (Bool × Memory) :=
  if UART_BASE ≤ address ∧ address < UART_BASE + UART_SIZE then
    some (uart_store_u8 (address - UART_BASE) value, c.ram)
  else
    c.store_bytes address (toLeBytes value 1)

/-- `Cpu::store_u16`. -/
def store_u16 (c : Cpu) (address value : Nat) : Option (Bool × Memory) :=
  if address % 2 ≠ 0 then some (false, c.ram)
  else c.store_bytes address (toLeBytes value 2)

/-- `Cpu::store_u32`. -/
def store_u32 (c : Cpu) (address value : Nat) : Option (Bool × Memory) :=
  if address % 4 ≠ 0 then some (false, c.ram)
  else c.store_bytes address (toLeBytes value 4)

/-- `Cpu::store_u64`. -/
def store_u64 (c : Cpu) (address value : Nat) : Option (Bool × Memory) :=
  if address % 8 ≠ 0 then some (false, c.ram)
  else c.store_bytes address (toLeBytes value 8)

/-- `Cpu::load_u8`: UART window check, then memory.  Outer `none` models
a panic inside `get_slice`; `some none` the graceful `None`. -/
def load_u8 (c : Cpu) (address : Nat) : Option (Option Nat) :=
  if UART_BASE ≤ address ∧ address < UART_BASE + UART_SIZE then
    some (uart_load_u8 (address - UART_BASE))
  else
    match c.ram.get_slice address 1 with
    | none => none
    | some none => some none
    | some (some slice) => some (some (fromLeBytes slice))

/-- `Cpu::load_u16`. -/
def load_u16 (c : Cpu) (address : Nat) : Option (Option Nat) :=
  if address % 2 ≠ 0 then some none
  else
    match c.ram.get_slice address 2 with
    | none => none
    | some none => some none
    | some (some slice) => some (some (fromLeBytes slice))

/-- `Cpu::load_u32`. -/
def load_u32 (c : Cpu) (address : Nat) : Option (Option Nat) :=
  if address % 4 ≠ 0 then some none
  else
    match c.ram.get_slice address 4 with
    | none => none
    | some none => some none
    | some (some slice) => some (some (fromLeBytes slice))

/-- `Cpu::load_u64`. -/
def load_u64 (c : Cpu) (address : Nat) : Option (Option Nat) :=
  if address % 8 ≠ 0 then some none
  else
    match c.ram.get_slice address 8 with
    | none => none
    | some none => some none
    | some (some slice) => some (some (fromLeBytes slice))

/-- The state mutations of the dispatch `match insn` inside `Cpu::step`.
`none` models every panicking path (`unimplemented!` arms, load/store
exceptions, division by zero, fatal CSR access).  The Rust `step`
returns `None` after the match; the halt reason is attached in `step`
below.  Register writes mirror the source exactly: the arms that guard
on `rd != 0` do so here, and the arms that write unconditionally
(`Auipc`, the OP arms, `Load`) do so here as well. -/
def execInsn (c : Cpu) (insn : Instruction) : Option Cpu :=
  match insn with
  | .Auipc u =>
    some { c with regs := c.regs.set u.rd (wrap64 (c.pc + sext32_64 u.imm)),
                  pc := wrap64 (c.pc + 4) }
  | .Lui u =>
    some { c with regs := if u.rd ≠ 0 then c.regs.set u.rd (sext32_64 u.imm)
                          else c.regs,
                  pc := wrap64 (c.pc + 4) }
  | .Addi i =>
    let v := wrap64 (c.regs.getD i.rs1 0 + sext32_64 i.imm)
    some { c with regs := if i.rd ≠ 0 then c.regs.set i.rd v else c.regs,
                  pc := wrap64 (c.pc + 4) }
  | .Addiw i =>
    let res := wrap32 (wrap32 (c.regs.getD i.rs1 0) + i.imm)
    let v := sext32_64 res
    some { c with regs := if i.rd ≠ 0 then c.regs.set i.rd v else c.regs,
                  pc := wrap64 (c.pc + 4) }
  | .Slliw i =>
    let res := wrap64 (c.regs.getD i.rs1 0 <<< (i.imm &&& 0x1F))
    let res := (wrap64 (res <<< 32)) >>> 32
    some { c with regs := if i.rd ≠ 0 then c.regs.set i.rd res else c.regs,
                  pc := wrap64 (c.pc + 4) }
  | .Srliw i =>
    let res := c.regs.getD i.rs1 0 >>> (i.imm &&& 0x1F)
    let res := (wrap64 (res <<< 32)) >>> 32
    some { c with regs := if i.rd ≠ 0 then c.regs.set i.rd res else c.regs,
                  pc := wrap64 (c.pc + 4) }
  | .Addw r =>
    let opa := wrap32 (c.regs.getD r.rs1 0)
    let opb := wrap32 (c.regs.getD r.rs2 0)
    let res := sext32_64 (wrap32 (opa + opb))
    some { c with regs := if r.rd ≠ 0 then c.regs.set r.rd res else c.regs,
                  pc := wrap64 (c.pc + 4) }
  | .Mulw r =>
    let opa := wrap32 (c.regs.getD r.rs1 0)
    let opb := wrap32 (c.regs.getD r.rs2 0)
    let res := sext32_64 (wrap32 (opa * opb))
    some { c with regs := if r.rd ≠ 0 then c.regs.set r.rd res else c.regs,
                  pc := wrap64 (c.pc + 4) }
  | .Subw r =>
    let opa := wrap32 (c.regs.getD r.rs1 0)
    let opb := wrap32 (c.regs.getD r.rs2 0)
    let res := sext32_64 (wsub32 opa opb)
    some { c with regs := if r.rd ≠ 0 then c.regs.set r.rd res else c.regs,
                  pc := wrap64 (c.pc + 4) }
  | .Sllw r =>
    let opa := wrap32 (c.regs.getD r.rs1 0)
    let opb := wrap32 (c.regs.getD r.rs2 0) &&& 0x1F
    let res := sext32_64 (wrap32 (opa <<< opb))
    some { c with regs := if r.rd ≠ 0 then c.regs.set r.rd res else c.regs,
                  pc := wrap64 (c.pc + 4) }
  | .Andi i =>
    let v := c.regs.getD i.rs1 0 &&& sext32_64 i.imm
    some { c with regs := if i.rd ≠ 0 then c.regs.set i.rd v else c.regs,
                  pc := wrap64 (c.pc + 4) }
  | .Ori i =>
    let v := c.regs.getD i.rs1 0 ||| sext32_64 i.imm
    some { c with regs := if i.rd ≠ 0 then c.regs.set i.rd v else c.regs,
                  pc := wrap64 (c.pc + 4) }
  | .Xori i =>
    let v := c.regs.getD i.rs1 0 ^^^ sext32_64 i.imm
    some { c with regs := if i.rd ≠ 0 then c.regs.set i.rd v else c.regs,
                  pc := wrap64 (c.pc + 4) }
  | .Slli i =>
    let res := wrap64 (c.regs.getD i.rs1 0 <<< (sext32_64 i.imm &&& 0x3F))
    some { c with regs := if i.rd ≠ 0 then c.regs.set i.rd res else c.regs,
                  pc := wrap64 (c.pc + 4) }
  | .Srli i =>
    let v := c.regs.getD i.rs1 0 >>> (sext32_64 i.imm &&& 0x3F)
    some { c with regs := if i.rd ≠ 0 then c.regs.set i.rd v else c.regs,
                  pc := wrap64 (c.pc + 4) }
  | .Srai i =>
    let shamt := sext32_64 i.imm &&& 0x3F
    let res := sar64 (c.regs.getD i.rs1 0) shamt
    some { c with regs := if i.rd ≠ 0 then c.regs.set i.rd res else c.regs,
                  pc := wrap64 (c.pc + 4) }
  | .Slti i =>
    let v := if toI64 (c.regs.getD i.rs1 0) < toI32 i.imm then 1 else 0
    some { c with regs := if i.rd ≠ 0 then c.regs.set i.rd v else c.regs,
                  pc := wrap64 (c.pc + 4) }
  | .Sltiu i =>
    let v := if c.regs.getD i.rs1 0 < sext32_64 i.imm then 1 else 0
    some { c with regs := if i.rd ≠ 0 then c.regs.set i.rd v else c.regs,
                  pc := wrap64 (c.pc + 4) }
  | .Slt r =>
    let v := if toI64 (c.regs.getD r.rs1 0) < toI64 (c.regs.getD r.rs2 0)
             then 1 else 0
    some { c with regs := if r.rd ≠ 0 then c.regs.set r.rd v else c.regs,
                  pc := wrap64 (c.pc + 4) }
  | .Sltu r =>
    let v := if c.regs.getD r.rs1 0 < c.regs.getD r.rs2 0 then 1 else 0
    some { c with regs := if r.rd ≠ 0 then c.regs.set r.rd v else c.regs,
                  pc := wrap64 (c.pc + 4) }
  | .Csrrw i =>
    let csrid := i.imm &&& 0xfff
    let val := c.regs.getD i.rs1 0
    match c.read_csr csrid with
    | none => none
    | some csr =>
      match c.write_csr csrid val with
      | none => none
      | some c2 =>
        some { c2 with regs := if i.rd ≠ 0 then c2.regs.set i.rd csr
                               else c2.regs,
                       pc := wrap64 (c2.pc + 4) }
  | .Csrrwi i =>
    let csrid := i.imm &&& 0xfff
    let imm := i.rs1
    match c.read_csr csrid with
    | none => none
    | some csr =>
      match c.write_csr csrid imm with
      | none => none
      | some c2 =>
        some { c2 with regs := if i.rd ≠ 0 then c2.regs.set i.rd csr
                               else c2.regs,
                       pc := wrap64 (c2.pc + 4) }
  | .Csrrs i =>
    let csrid := i.imm &&& 0xfff
    let val := c.regs.getD i.rs1 0
    match c.read_csr csrid with
    | none => none
    | some csr =>
      match (if val ≠ 0 then c.write_csr csrid (val ||| csr) else some c) with
      | none => none
      | some c2 =>
        some { c2 with regs := if i.rd ≠ 0 then c2.regs.set i.rd csr
                               else c2.regs,
                       pc := wrap64 (c2.pc + 4) }
  | .Csrrc i =>
    let csrid := i.imm &&& 0xfff
    let val := c.regs.getD i.rs1 0
    match c.read_csr csrid with
    | none => none
    | some csr =>
      match (if val ≠ 0 then c.write_csr csrid (val &&& comp64 csr)
             else some c) with
      | none => none
      | some c2 =>
        some { c2 with regs := if i.rd ≠ 0 then c2.regs.set i.rd csr
                               else c2.regs,
                       pc := wrap64 (c2.pc + 4) }
  | .Add r =>
    let opa := c.regs.getD r.rs1 0
    let opb := c.regs.getD r.rs2 0
    some { c with regs := c.regs.set r.rd (wrap64 (opa + opb)),
                  pc := wrap64 (c.pc + 4) }
  | .Sub r =>
    let opa := c.regs.getD r.rs1 0
    let opb := c.regs.getD r.rs2 0
    some { c with regs := c.regs.set r.rd (wsub64 opa opb),
                  pc := wrap64 (c.pc + 4) }
  | .And r =>
    let opa := c.regs.getD r.rs1 0
    let opb := c.regs.getD r.rs2 0
    some { c with regs := c.regs.set r.rd (opa &&& opb),
                  pc := wrap64 (c.pc + 4) }
  | .Or r =>
    let opa := c.regs.getD r.rs1 0
    let opb := c.regs.getD r.rs2 0
    some { c with regs := c.regs.set r.rd (opa ||| opb),
                  pc := wrap64 (c.pc + 4) }
  | .Xor r =>
    let opa := c.regs.getD r.rs1 0
    let opb := c.regs.getD r.rs2 0
    some { c with regs := c.regs.set r.rd (opa ^^^ opb),
                  pc := wrap64 (c.pc + 4) }
  | .Srl r =>
    let opa := c.regs.getD r.rs1 0
    let opb := c.regs.getD r.rs2 0 &&& 0x3F
    some { c with regs := c.regs.set r.rd (opa >>> opb),
                  pc := wrap64 (c.pc + 4) }
  | .Sll r =>
    let opa := c.regs.getD r.rs1 0
    let opb := c.regs.getD r.rs2 0 &&& 0x3F
    some { c with regs := c.regs.set r.rd (wrap64 (opa <<< opb)),
                  pc := wrap64 (c.pc + 4) }
  | .Mul r =>
    let opa := c.regs.getD r.rs1 0
    let opb := c.regs.getD r.rs2 0
    some { c with regs := c.regs.set r.rd (wrap64 (opa * opb)),
                  pc := wrap64 (c.pc + 4) }
  | .Mulh r =>
    let opa := c.regs.getD r.rs1 0
    let opb := c.regs.getD r.rs2 0
    some { c with regs := c.regs.set r.rd ((opa * opb) >>> 64),
                  pc := wrap64 (c.pc + 4) }
  | .Divu r =>
    let opa := c.regs.getD r.rs1 0
    let opb := c.regs.getD r.rs2 0
    if opb = 0 then none
    else some { c with regs := c.regs.set r.rd (opa / opb),
                       pc := wrap64 (c.pc + 4) }
  | .Jal j =>
    let regs := if j.rd ≠ 0 then c.regs.set j.rd (wrap64 (c.pc + 4))
                else c.regs
    let target := wrap64 (c.pc + sext32_64 j.imm)
    some { c with regs := regs, pc := target }
  | .Jalr i =>
    let val := wrap64 (c.pc + 4)
    let target := wrap64 (c.regs.getD i.rs1 0 + sext32_64 i.imm) &&&
      (2^64 - 2)
    some { c with pc := target,
                  regs := if i.rd ≠ 0 then c.regs.set i.rd val else c.regs }
  | .Store s =>
    let addr := wrap64 (c.regs.getD s.rs1 0 + sext32_64 s.imm)
    let val := c.regs.getD s.rs2 0
    let res :=
      if s.funct3 = 0 then c.store_u8 addr (val % 2^8)
      else if s.funct3 = 1 then c.store_u16 addr (val % 2^16)
      else if s.funct3 = 2 then c.store_u32 addr (val % 2^32)
      else if s.funct3 = 3 then c.store_u64 addr val
      else none
    match res with
    | none => none
    | some (retired, ram2) =>
      if retired then some { c with ram := ram2, pc := wrap64 (c.pc + 4) }
      else none
  | .Load i =>
    let addr := wrap64 (c.regs.getD i.rs1 0 + sext32_64 i.imm)
    let val :=
      if i.funct3 = 0 then (c.load_u8 addr).map (fun o => o.map sext8_64)
      else if i.funct3 = 1 then (c.load_u16 addr).map (fun o => o.map sext16_64)
      else if i.funct3 = 2 then (c.load_u32 addr).map (fun o => o.map sext32_64)
      else if i.funct3 = 3 then c.load_u64 addr
      else if i.funct3 = 4 then c.load_u8 addr
      else if i.funct3 = 5 then c.load_u16 addr
      else if i.funct3 = 6 then c.load_u32 addr
      else if i.funct3 = 7 then c.load_u64 addr
      else none
    match val with
    | none => none
    | some none => none
    | some (some v) =>
      some { c with regs := c.regs.set i.rd v, pc := wrap64 (c.pc + 4) }
  | .Mret _ =>
    let mpp := (c.mstatus >>> 11) &&& 3
    let mpie := (c.mstatus >>> 7) &&& 1
    let m := c.mstatus &&& comp64 (1 <<< mpp)
    let m := m ||| (mpie <<< mpp)
    let m := m ||| (1 <<< 7)
    let m := m &&& comp64 (3 <<< 11)
    some { c with mstatus := m, privl := mpp, pc := c.mepc }
  | .Beq b =>
    let cond := c.regs.getD b.rs1 0 = c.regs.getD b.rs2 0
    some { c with pc := if cond then wrap64 (c.pc + sext32_64 b.imm)
                        else wrap64 (c.pc + 4) }
  | .Bne b =>
    let cond := c.regs.getD b.rs1 0 ≠ c.regs.getD b.rs2 0
    some { c with pc := if cond then wrap64 (c.pc + sext32_64 b.imm)
                        else wrap64 (c.pc + 4) }
  | .Blt b =>
    let cond := toI64 (c.regs.getD b.rs1 0) < toI64 (c.regs.getD b.rs2 0)
    some { c with pc := if cond then wrap64 (c.pc + sext32_64 b.imm)
                        else wrap64 (c.pc + 4) }
  | .Bge b =>
    let cond := toI64 (c.regs.getD b.rs2 0) ≤ toI64 (c.regs.getD b.rs1 0)
    some { c with pc := if cond then wrap64 (c.pc + sext32_64 b.imm)
                        else wrap64 (c.pc + 4) }
  | .Bltu b =>
    let cond := c.regs.getD b.rs1 0 < c.regs.getD b.rs2 0
    some { c with pc := if cond then wrap64 (c.pc + sext32_64 b.imm)
                        else wrap64 (c.pc + 4) }
  | .Bgeu b =>
    let cond := c.regs.getD b.rs2 0 ≤ c.regs.getD b.rs1 0
    some { c with pc := if cond then wrap64 (c.pc + sext32_64 b.imm)
                        else wrap64 (c.pc + 4) }
  | .Amoswapw r =>
    let addr := c.regs.getD r.rs1 0
    let val := c.regs.getD r.rs2 0
    match c.load_u32 addr with
    | none => none
    | some none => none
    | some (some memval) =>
      match c.store_u32 addr (val % 2^32) with
      | none => none
      | some (false, _) => none
      | some (true, ram2) =>
        some { c with ram := ram2,
                      regs := if r.rd ≠ 0 then
                          c.regs.set r.rd (sext32_64 memval)
                        else c.regs,
                      pc := wrap64 (c.pc + 4) }
  | .Amoaddw r =>
    let addr := c.regs.getD r.rs1 0
    let val := wrap32 (c.regs.getD r.rs2 0)
    match c.load_u32 addr with
    | none => none
    | some none => none
    | some (some memval) =>
      match c.store_u32 addr (wrap32 (memval + val)) with
      | none => none
      | some (false, _) => none
      | some (true, ram2) =>
        some { c with ram := ram2,
                      regs := if r.rd ≠ 0 then
                          c.regs.set r.rd (sext32_64 memval)
                        else c.regs,
                      pc := wrap64 (c.pc + 4) }
  | .Amoswapd r =>
    let addr := c.regs.getD r.rs1 0
    let val := c.regs.getD r.rs2 0
    match c.load_u64 addr with
    | none => none
    | some none => none
    | some (some memval) =>
      match c.store_u64 addr val with
      | none => none
      | some (false, _) => none
      | some (true, ram2) =>
        some { c with ram := ram2,
                      regs := if r.rd ≠ 0 then c.regs.set r.rd memval
                              else c.regs,
                      pc := wrap64 (c.pc + 4) }
  | .Fence =>
    some { c with pc := wrap64 (c.pc + 4) }
  | .Ebreak =>
    -- the `return Some(HaltReason::Breakpoint(..))` is commented out in
    -- the source; `ebreak` just advances the pc
    some { c with pc := wrap64 (c.pc + 4) }
  | .Ecall => none
  | .Sret _ => none
  | .Wfi _ => none
  | .Sra _ => none
  | .Div _ => none
  | .Rem _ => none
  | .Remu _ => none
  | .Invalid _ => none

/-- `Cpu::fetch_and_decode_insn`.  The Rust caller unwraps the result,
so the graceful `None` of the fetch and the decode panic are collapsed
into the single panic layer. -/
def fetch_and_decode_insn (c : Cpu) (address : Nat) : Option Instruction :=
  match c.load_u32 address with
  | none => none
  | some none => none
  | some (some w) => decode w

/-- `Cpu::step`: fetch, decode, dispatch.  The Rust function returns
`None` (continue) after the dispatch match on every non-panicking path;
`none` here models the panics. -/
def step (c : Cpu) : Option (Cpu × Option HaltReason) :=
  match c.fetch_and_decode_insn c.pc with
  | none => none
  | some insn =>
    match execInsn c insn with
    | none => none
    | some c2 => some (c2, none)

/-- `Cpu::run(maxsteps)`. -/
def run (c : Cpu) (maxsteps : Nat) : Option (Cpu × HaltReason) :=
  match maxsteps with
  | 0 => some (c, HaltReason.Steps)
  | Nat.succ m =>
    match step c with
    | none => none
    | some (c2, some hr) => some (c2, hr)
    | some (c2, none) => run c2 m

end Cpu

end Nrv64

namespace Nrv64

/-! ## Concrete machine states used to evaluate the model

Each is a small CPU in the style of `Cpu::new` (machine mode, zeroed
registers and CSRs, a low region holding the program, pc at its base);
the 128 MiB high region is irrelevant to the evaluated programs and is
left out of the region map. -/

/-- A machine-mode CPU over the given region map, program counter and
register file, with all CSRs (and the modelled host clock) zeroed. -/
def mkCpu (ram : Memory) (pc : Nat) (regs : List Nat) : Cpu :=
  { ram := ram, pc := pc, regs := regs, privl := 3,
    pmpcfg := List.replicate 4 0, pmpaddr := List.replicate 64 0,
    mstatus := 0, misa := 0, medeleg := 0, mideleg := 0, mie := 0,
    mip := 0, mtvec := 0, mcounteren := 0, menvcfg := 0, mscratch := 0,
    mepc := 0, satp := 0, stimecmp := 0, clock := 0 }

/-- One 4-byte region at `0x1000`. -/
def memC1 : Memory := ⟨[(0x1000, [0xAA, 0xBB, 0xCC, 0xDD])]⟩

/-- `addi x5, x0, 1` then `add x0, x5, x6`, at `0x1000`. -/
def cpuC2 : Cpu :=
  mkCpu ⟨[(0x1000, [0x93, 0x02, 0x10, 0x00, 0x33, 0x80, 0x62, 0x00])]⟩
    0x1000 (List.replicate 32 0)

/-- `mret` at `0x1000`, with mstatus MPP=1 (bit 11), MPIE=1 (bit 7),
MIE=0, and mepc = 0x4000. -/
def cpuC5 : Cpu :=
  { mkCpu ⟨[(0x1000, [0x73, 0x00, 0x20, 0x30])]⟩ 0x1000
      (List.replicate 32 0) with
    mstatus := 0x880, mepc := 0x4000 }

/-- `csrrw x5, mhartid, x6` (raw `0xF14312F3`) at `0x1000`, x6 = 42. -/
def cpuC6 : Cpu :=
  mkCpu ⟨[(0x1000, [0xF3, 0x12, 0x43, 0xF1])]⟩ 0x1000
    ((List.replicate 32 0).set 6 42)

/-- `divu x3, x5, x6` (raw `0x0262D1B3`) at `0x1000`, x5 = 7, x6 = 0. -/
def cpuC7 : Cpu :=
  mkCpu ⟨[(0x1000, [0xB3, 0xD1, 0x62, 0x02])]⟩ 0x1000
    ((List.replicate 32 0).set 5 7)

/-- `srliw x3, x5, 1` (raw `0x0012D19B`) at `0x1000`, x5 = 2^32. -/
def cpuC8 : Cpu :=
  mkCpu ⟨[(0x1000, [0x9B, 0xD1, 0x12, 0x00])]⟩ 0x1000
    ((List.replicate 32 0).set 5 0x100000000)

/-- A CPU with an empty region map (UART accesses touch no region). -/
def cpuC9 : Cpu := mkCpu ⟨[]⟩ 0x2000 (List.replicate 32 0)

/-- A store whose effective address from `cpuC9` is the UART THR. -/
def sC9 : SType := ⟨0x23, 0, 0, 1, 0x10000000⟩

/-- `ebreak` (raw `0x00100073`) at `0x1000`. -/
def cpuC10 : Cpu :=
  mkCpu ⟨[(0x1000, [0x73, 0x00, 0x10, 0x00])]⟩ 0x1000 (List.replicate 32 0)

/-- The state after executing the `ebreak` of `cpuC10`. -/
def cpuC10after : Cpu := { cpuC10 with pc := 0x1004 }

end Nrv64

namespace Nrv64

/-! ## Claims -/

/-- Claim C1.  The claim states that `get_slice(addr, len)` (and
`get_slice_mut`) return the slice exactly when one region wholly
contains `[addr, addr+len)` and return nothing otherwise, in particular
when the request starts inside a region but overruns its last byte.  On
the region `0x1000..0x1004`, the request `(0x1002, 4)` starts inside the
region and overruns it: the source panics (`none` here) instead of
returning `None` (`some none` here); the fully-contained request and the
out-of-any-region request behave as specified. -/
theorem c1_get_slice_overrun_panics :
    memC1.get_slice 0x1002 4 = none ∧
    memC1.get_slice_mut 0x1002 4 = none ∧
    memC1.get_slice 0x1000 4 = some (some [0xAA, 0xBB, 0xCC, 0xDD]) ∧
    memC1.get_slice 0x1003 1 = some (some [0xDD]) ∧
    memC1.get_slice 0x2000 1 = some none := by decide

/-- Claim C2.  The claim states that register x0 stays zero across every
step, writes to it being suppressed.  Executing `addi x5, x0, 1` and then
`add x0, x5, x6` from an all-zero register file leaves `regs[0] = 1`:
the `Add` arm (like the other OP arms and `Load`) writes `regs[rd]`
unconditionally, with no `rd != 0` guard and no force-clear of slot 0,
so the next step would trip `debug_assert!(self.regs[0] == 0)`. -/
theorem c2_x0_clobbered_by_add :
    (Cpu.run cpuC2 2).map
        (fun p => (p.1.regs.getD 0 0, p.1.regs.getD 5 0, p.2)) =
      some (1, 1, HaltReason.Steps) := by decide

/-- Claim C3 counterexample.  The claim states `decode` returns a value
for every u32 including entirely unsupported primary opcodes; but the
source hits `unimplemented!` (modelled `none`) on primary opcode 0x00
and on 0x7F. -/
theorem c3_decode_not_total :
    decode 0x00000000 = none ∧ decode 0xFFFFFFFF = none := ⟨by rfl, by rfl⟩

/-- Claim C4.  The claim states the U-type immediate equals
`raw & 0xFFFFF000`.  For `lui x16, 0` (raw `0x00000837`) the source's
`decode_u_imm` masks with `0xfffff800`, so bit 11 — the top bit of the
rd field — leaks into the immediate: the source yields `0x800` where the
claim requires `0`. -/
theorem c4_u_imm_wrong_mask :
    decode_u_imm 0x00000837 = 0x800 ∧
    0x00000837 &&& 0xFFFFF000 = 0 ∧
    decode 0x00000837 = some (.Lui ⟨0x37, 16, 0x800⟩) :=
  ⟨by decide, by decide, by rfl⟩

/-- Claim C5.  The claim states `Mret` from mstatus with MPP=1, MPIE=1
and mepc=T yields privilege 1, pc=T, MIE=1, MPIE=1, MPP=0.  From
mstatus = 0x880 the source yields mstatus = 0x082: privilege, pc, MPIE
and MPP agree with the claim, but MIE (bit 3) stays 0 — the source
shifts by the MPP value (`1 << mpp`, here bit 1, the SIE position)
instead of by 3, so MIE := MPIE only happens to hold when MPP = 3. -/
theorem c5_mret_mie_not_set :
    (Cpu.step cpuC5).map (fun p => (p.1.mstatus, p.1.privl, p.1.pc, p.2)) =
      some (0x082, 1, 0x4000, none) ∧
    Nat.testBit 0x082 3 = false ∧ Nat.testBit 0x082 1 = true := by decide

/-- Claim C6 counterexample.  The claim states
`csrrw x5, mhartid, x6` with x6 = 42 completes the step; but
`write_csr(0xF14, 42)` falls into the `unimplemented!` catch-all of the
source, so the step is fatal (`none`). -/
theorem c6_csrrw_mhartid_fatal : Cpu.step cpuC6 = none := by decide

/-- Claim C6 (amended).  Writes to the hpm-counter block
`0xB00..=0xB9F` are ignored without fault (the CSR state is unchanged
and the write succeeds), but CSR writes to mhartid `0xF14`, misa
`0x301`, mcountinhibit `0x320` and time `0xC01` have no arm in
`write_csr` and are fatal, so `csrrw x5, mhartid, x6` does not complete
a step. -/
theorem c6_readonly_csr_writes :
    ∀ (c : Cpu) (v csr : Nat),
      (0xB00 ≤ csr ∧ csr ≤ 0xB9F → c.write_csr csr v = some c) ∧
      c.write_csr 0xF14 v = none ∧
      c.write_csr 0x301 v = none ∧
      c.write_csr 0x320 v = none ∧
      c.write_csr 0xC01 v = none := by
  intro c v csr
  refine ⟨?_, ?_, ?_, ?_, ?_⟩
  · intro h
    obtain ⟨h1, h2⟩ := h
    interval_cases csr <;> rfl
  all_goals rfl

/-- Claim C6 witness: the amended statement evaluated at `csr = 0xB00`
and at the concrete machine of the counterexample. -/
theorem c6_readonly_csr_writes_witness :
    (0xB00 ≤ 0xB00 ∧ 0xB00 ≤ 0xB9F) ∧
    cpuC6.write_csr 0xB00 42 = some cpuC6 ∧
    cpuC6.write_csr 0xF14 42 = none :=
  ⟨by decide, (c6_readonly_csr_writes cpuC6 42 0xB00).1 (by decide),
   (c6_readonly_csr_writes cpuC6 42 0xB00).2.1⟩

/-- Claim C7.  The claim states `Divu` with divisor zero writes all-ones
and completes, `Remu` with divisor zero writes the dividend, and signed
overflow returns INT_MIN.  In the source, `divu x3, x5, x6` with x6 = 0
executes `opa / opb`, which panics on a zero divisor (fatal `none`), and
`Remu`, `Div` and `Rem` have no dispatch arm at all — they fall to the
fatal catch-all. -/
theorem c7_divu_by_zero_fatal :
    Cpu.step cpuC7 = none ∧
    decode 0x0262D1B3 = some (.Divu ⟨0x33, 3, 5, 5, 6, 1⟩) ∧
    Cpu.execInsn cpuC7 (.Remu ⟨0x33, 3, 7, 5, 6, 1⟩) = none ∧
    Cpu.execInsn cpuC7 (.Div ⟨0x33, 3, 4, 5, 6, 1⟩) = none ∧
    Cpu.execInsn cpuC7 (.Rem ⟨0x33, 3, 6, 5, 6, 1⟩) = none :=
  ⟨by decide, by rfl, by rfl, by rfl, by rfl⟩

/-- Claim C8.  The claim states `Srliw` shifts only the low 32 bits of
rs1 and sign-extends the 32-bit result, so bits 63..32 never flow in.
Executing `srliw x3, x5, 1` with x5 = 2^32 the source writes
`0x80000000` to x3: it shifts the full 64-bit register (bit 32 flows
into the 32-bit result) and then zero-extends (both `<< 32 >> 32`
shifts are on `u64`); the architectural value at this input — the
sign-extension of the 32-bit shift of the low 32 bits — is 0. -/
theorem c8_srliw_shifts_full_register :
    (Cpu.step cpuC8).map (fun p => p.1.regs.getD 3 0) = some 0x80000000 ∧
    sext32_64 (wrap32 0x100000000 >>> 1) = 0 := by decide

end Nrv64

namespace Nrv64

set_option maxHeartbeats 1600000 in
/-- Claim C3 (amended).  `decode` is a pure function of the raw word,
but it is not total: it returns a value (possibly `Invalid raw` inside
the OP class) exactly when the primary opcode is one of the fourteen
supported classes and the minor selectors fall in the handled cases,
and is fatal (`unimplemented!`, modelled `none`) on entirely
unsupported primary opcodes and unhandled selectors, as the domain
predicate `decodeSupported` characterises. -/
theorem c3_decode_domain : ∀ w : Nat, w < 2^32 →
    ((decode w).isSome ↔ decodeSupported w) := by
  intro w hw
  by_cases h03 : w % 128 = 0x03
  · simp [decode, decodeSupported, h03]
  by_cases h0F : w % 128 = 0x0F
  · simp [decode, decodeSupported, h03, h0F]
  by_cases h13 : w % 128 = 0x13
  · simp [decode, decodeSupported, IType.ofRaw, h03, h0F, h13] <;>
      (split_ifs <;> simp_all <;> omega)
  by_cases h1b : w % 128 = 0x1b
  · simp [decode, decodeSupported, IType.ofRaw, h03, h0F, h13, h1b] <;>
      (split_ifs <;> simp_all)
  by_cases h17 : w % 128 = 0x17
  · simp [decode, decodeSupported, h03, h0F, h13, h1b, h17]
  by_cases h23 : w % 128 = 0x23
  · simp [decode, decodeSupported, h03, h0F, h13, h1b, h17, h23]
  by_cases h2F : w % 128 = 0x2F
  · simp [decode, decodeSupported, RType.ofRaw, h03, h0F, h13, h1b, h17, h23,
      h2F]
  by_cases h33 : w % 128 = 0x33
  · simp [decode, decodeSupported, RType.ofRaw, h03, h0F, h13, h1b, h17, h23,
      h2F, h33] <;>
      simp only [apply_ite Option.isSome, Option.isSome_some, ite_self]
  by_cases h37 : w % 128 = 0x37
  · simp [decode, decodeSupported, h03, h0F, h13, h1b, h17, h23, h2F, h33, h37]
  by_cases h3B : w % 128 = 0x3B
  · simp [decode, decodeSupported, RType.ofRaw, h03, h0F, h13, h1b, h17, h23,
      h2F, h33, h37, h3B]
  by_cases h63 : w % 128 = 0x63
  · simp [decode, decodeSupported, BType.ofRaw, h03, h0F, h13, h1b, h17, h23,
      h2F, h33, h37, h3B, h63] <;> (split_ifs <;> simp_all)
  by_cases h67 : w % 128 = 0x67
  · simp [decode, decodeSupported, h03, h0F, h13, h1b, h17, h23, h2F, h33,
      h37, h3B, h63, h67]
  by_cases h6F : w % 128 = 0x6F
  · simp [decode, decodeSupported, h03, h0F, h13, h1b, h17, h23, h2F, h33,
      h37, h3B, h63, h67, h6F]
  by_cases h73 : w % 128 = 0x73
  · simp [decode, decodeSupported, IType.ofRaw, h03, h0F, h13, h1b, h17, h23,
      h2F, h33, h37, h3B, h63, h67, h6F, h73] <;> (split_ifs <;> simp_all)
  simp [decode, decodeSupported, h03, h0F, h13, h1b, h17, h23, h2F, h33, h37,
    h3B, h63, h67, h6F, h73]

/-- Claim C3 witness: the domain characterisation evaluated at the
supported encoding `add x0, x5, x6` and the unsupported word 0. -/
theorem c3_decode_domain_witness :
    ((0x00628033 : Nat) < 2^32 ∧
      ((decode 0x00628033).isSome ↔ decodeSupported 0x00628033)) ∧
    ((0 : Nat) < 2^32 ∧ ((decode 0).isSome ↔ decodeSupported 0)) :=
  ⟨⟨by decide, c3_decode_domain 0x00628033 (by decide)⟩,
   ⟨by decide, c3_decode_domain 0 (by decide)⟩⟩

/-- Claim C9.  A byte store whose effective address is the UART THR
(`0x10000000`) succeeds and changes nothing but the pc (ram and the
register file are untouched); a byte load from `0x10000005` (LSR)
returns `0x60`; every byte store into the UART window `0x10000000 ..
0x10000100` succeeds with the ram unchanged (offsets other than 0 are
ignored, offset 0 goes to the host stdout); and a byte load from any
other offset of the window returns nothing. -/
theorem c9_uart_window :
    (∀ (c : Cpu) (s : SType), s.funct3 = 0 →
      wrap64 (c.regs.getD s.rs1 0 + sext32_64 s.imm) = 0x10000000 →
      Cpu.execInsn c (.Store s) = some { c with pc := wrap64 (c.pc + 4) }) ∧
    (∀ c : Cpu, c.load_u8 0x10000005 = some (some 0x60)) ∧
    (∀ (c : Cpu) (a v : Nat), 0x10000000 ≤ a → a < 0x10000100 →
      c.store_u8 a v = some (true, c.ram)) ∧
    (∀ (c : Cpu) (a : Nat), 0x10000000 ≤ a → a < 0x10000100 →
      a ≠ 0x10000005 → c.load_u8 a = some none) := by
  refine ⟨?_, ?_, ?_, ?_⟩
  · intro c s h3 haddr
    simp only [Cpu.execInsn, h3, haddr, Cpu.store_u8]
    norm_num [UART_BASE, UART_SIZE, uart_store_u8]
  · intro c
    rfl
  · intro c a v h1 h2
    have hc : UART_BASE ≤ a ∧ a < UART_BASE + UART_SIZE := by
      unfold UART_BASE UART_SIZE; omega
    simp [Cpu.store_u8, hc, uart_store_u8]
  · intro c a h1 h2 h5
    have hc : UART_BASE ≤ a ∧ a < UART_BASE + UART_SIZE := by
      unfold UART_BASE UART_SIZE; omega
    have hne : a - UART_BASE ≠ 0x05 := by unfold UART_BASE; omega
    simp [Cpu.load_u8, hc, uart_load_u8, hne]

/-- Claim C9 witness: the four parts evaluated at the concrete machine
`cpuC9`, the store `sC9` aimed at the THR, and window address
`0x10000042`. -/
theorem c9_uart_window_witness :
    (sC9.funct3 = 0 ∧
      wrap64 (cpuC9.regs.getD sC9.rs1 0 + sext32_64 sC9.imm) = 0x10000000) ∧
    Cpu.execInsn cpuC9 (.Store sC9) =
      some { cpuC9 with pc := wrap64 (cpuC9.pc + 4) } ∧
    cpuC9.load_u8 0x10000005 = some (some 0x60) ∧
    cpuC9.store_u8 0x10000042 7 = some (true, cpuC9.ram) ∧
    cpuC9.load_u8 0x10000042 = some none :=
  ⟨⟨by decide, by decide⟩,
   c9_uart_window.1 cpuC9 sC9 (by decide) (by decide),
   c9_uart_window.2.1 cpuC9,
   c9_uart_window.2.2.1 cpuC9 0x10000042 7 (by decide) (by decide),
   c9_uart_window.2.2.2 cpuC9 0x10000042 (by decide) (by decide) (by decide)⟩

/-- Claim C10.  Whenever `step` completes it returns no halt reason
(the `Breakpoint` return in the `Ebreak` arm is commented out and every
live arm falls through to the final `None`), and consequently whenever
`run(max_steps)` returns it returns the `Steps` halt reason, never
`Breakpoint` and never `Halt`. -/
theorem c10_run_only_steps :
    (∀ (c c2 : Cpu) (r : Option HaltReason),
        Cpu.step c = some (c2, r) → r = none) ∧
    (∀ (n : Nat) (c c2 : Cpu) (hr : HaltReason),
        Cpu.run c n = some (c2, hr) → hr = HaltReason.Steps) := by
  have hs : ∀ (c c2 : Cpu) (r : Option HaltReason),
      Cpu.step c = some (c2, r) → r = none := by
    intro c c2 r h
    unfold Cpu.step at h
    split at h
    · exact absurd h (by simp)
    · split at h
      · exact absurd h (by simp)
      · cases h; rfl
  refine ⟨hs, ?_⟩
  intro n
  induction n with
  | zero =>
    intro c c2 hr h
    unfold Cpu.run at h
    cases h; rfl
  | succ m ih =>
    intro c c2 hr h
    unfold Cpu.run at h
    split at h
    · exact absurd h (by simp)
    · rename_i c3 hr2 heq
      have := hs _ _ _ heq
      simp at this
    · rename_i c3 heq
      exact ih _ _ _ h

/-- Claim C10 witness: one step of the `ebreak` program of `cpuC10`
completes (pc advances by 4) and its one-step run returns `Steps`. -/
theorem c10_run_only_steps_witness :
    Cpu.run cpuC10 1 = some (cpuC10after, HaltReason.Steps) ∧
    HaltReason.Steps = HaltReason.Steps :=
  ⟨by decide,
   c10_run_only_steps.2 1 cpuC10 cpuC10after HaltReason.Steps (by decide)⟩

end Nrv64
